import Mathlib

/-!
# cfdev: the root command wiring (`cmd/root.go`)

A shallow embedding of `NewRoot` and `newDriver`.

Go values that live behind a pointer carry the address they were allocated at, so
that "the same instance" and "an equal value" are different statements.  Code in
`root.go` runs against a `World`: an allocation counter, the trace of the calls made
so far, and the pointer graph of the `cobra.Command` objects.
-/

set_option linter.dupNamespace false

namespace Cfdev

/-! ## Pointers, the world and the construction monad -/

/-- A Go pointer `*T`: the address of the object and the object it points at. -/
structure Ptr (α : Type) where
  addr : Nat
  val : α
deriving DecidableEq, Repr

/-- A Go `string`: a sequence of bytes. -/
abbrev GoString := List UInt8

/-- Bytes of a string literal written with ASCII characters only. -/
def bytes (s : String) : GoString := s.toList.map (fun c => UInt8.ofNat c.toNat)

/-- Which `Cmd()` method produced a command. -/
inductive CmdKind where
  | version | bosh | catalog | download | start | stop | telemetry | provision | deployService
deriving DecidableEq, Repr

/-- A `*cobra.Command` value.  `lit` is a command built by a composite literal in
`root.go` (its fields are in the world's command table); `method` is the command
returned by `recv.Cmd()` for the receiver at address `recv`, built outside this file. -/
inductive CmdRef where
  | lit (addr : Nat)
  | method (kind : CmdKind) (recv : Nat) (addr : Nat)
deriving DecidableEq, Repr

/-- Address of a command. -/
def CmdRef.addr : CmdRef → Nat
  | .lit a => a
  | .method _ _ a => a

/-- A `pflag.Flag` as far as `root.go` sets it. -/
structure Flag where
  Name : String
  DefValue : String
  Usage : String
  Hidden : Bool
deriving DecidableEq, Repr

/-- The `Run` closure of a command literal: the one closure in `root.go` looks a
command up below the captured `dev` and prints its help. -/
inductive RunFn where
  | findAndHelp (dev : Nat)
deriving DecidableEq, Repr

/-- The fields of `cobra.Command` that `root.go` reads or writes. -/
structure Command where
  Use : String
  Short : String
  SilenceUsage : Bool
  SilenceErrors : Bool
  Run : Option RunFn
  usageTemplate : GoString
  pflags : List Flag
  commands : List CmdRef
deriving DecidableEq, Repr

/-- The state `root.go` runs against. -/
structure World where
  /-- next free address -/
  next : Nat
  /-- names of the functions called so far, oldest first -/
  calls : List String
  /-- the command literal stored at an address -/
  cmds : Nat → Option Command
  /-- the `parent` pointer of the command at an address, set by `AddCommand` -/
  parents : Nat → Option Nat

abbrev M := StateM World

/-- Allocate a fresh object. -/
def alloc {α : Type} (v : α) : M (Ptr α) :=
  fun w => (⟨w.next, v⟩, { w with next := w.next + 1 })

/-- Record a call in the trace (the trace is how the model counts calls; the Go code
keeps no such record). -/
def call (name : String) : M Unit :=
  fun w => ((), { w with calls := w.calls ++ [name] })

/-- Embedding of `&cobra.Command{...}`. -/
def newCommand (c : Command) : M Nat :=
  fun w => (w.next,
    { w with next := w.next + 1, cmds := fun a => if a = w.next then some c else w.cmds a })

/-- Write through a `*cobra.Command`. -/
def modifyCmd (c : Nat) (f : Command → Command) : M Unit :=
  fun w => ((), { w with cmds := fun a => if a = c then (w.cmds a).map f else w.cmds a })

/-! ## cobra -/

/-- Embedding of `(*cobra.Command).PersistentFlags().Bool(name, value, usage)`. -/
def PersistentFlagsBool (c : Nat) (name : String) (value : Bool) (usage : String) : M Unit :=
  modifyCmd c (fun k =>
    let flag : Flag :=
      { Name := name, DefValue := if value then "true" else "false", Usage := usage, Hidden := false }
    { k with pflags := k.pflags ++ [flag] })

/-- Embedding of `c.PersistentFlags().Lookup(name).Hidden = true`, for a flag that was
defined before. -/
def PersistentFlagsHide (c : Nat) (name : String) : M Unit :=
  modifyCmd c (fun k =>
    let hide := fun (f : Flag) => if f.Name = name then { f with Hidden := true } else f
    { k with pflags := k.pflags.map hide })

/-- Embedding of `(*cobra.Command).UsageTemplate()`: the command's own template when set,
else its parent's, else cobra's built-in default `dflt`.  `fuel` bounds the walk up the
parents (a chain of distinct commands is no longer than the number of addresses in
use).  A command built outside `root.go` has no template this file knows of. -/
def UsageTemplate (dflt : GoString) (w : World) : Nat → Nat → GoString
  | 0, _ => dflt
  | fuel + 1, c =>
    let own : GoString := match w.cmds c with
      | some k => k.usageTemplate
      | none => []
    if own ≠ [] then own
    else match w.parents c with
      | some p => UsageTemplate dflt w fuel p
      | none => dflt

/-- Embedding of `(*cobra.Command).SetUsageTemplate(s)`. -/
def SetUsageTemplate (c : Nat) (s : GoString) : M Unit :=
  modifyCmd c (fun k => { k with usageTemplate := s })

/-- Embedding of `(*cobra.Command).AddCommand(x)`: appends to the children and sets the
parent.  cobra refuses a command added to itself; `root.go` never does that. -/
def AddCommand (c : Nat) (x : CmdRef) : M Unit :=
  fun w => ((), { w with
    cmds := fun a =>
      if a = c then (w.cmds a).map (fun k => { k with commands := k.commands ++ [x] })
      else w.cmds a,
    parents := fun a => if a = x.addr then some c else w.parents a })

/-- Embedding of `(*cobra.Command).Name()`: `Use` up to its first space. -/
def Command.Name (c : Command) : String :=
  String.mk (c.Use.toList.takeWhile (fun ch => ch != Char.ofNat 32))

/-! ## Go standard library: `unicode/utf8` and `strings` -/

namespace utf8

/-- Size in bytes of the rune `utf8.DecodeRuneInString` decodes at the front of `s`:
0 for the empty string, 1 for an ASCII byte and for every invalid or short encoding,
otherwise the length of the well-formed encoding. -/
def runeSize (s : GoString) : Nat :=
  match s with
  | [] => 0
  | s0 :: rest =>
    -- (size, lowest and highest accepted second byte) from the tables `first` and `acceptRanges`
    let entry : Option (Nat × UInt8 × UInt8) :=
      if s0 < 0xC2 then none
      else if s0 ≤ 0xDF then some (2, 0x80, 0xBF)
      else if s0 = 0xE0 then some (3, 0xA0, 0xBF)
      else if s0 ≤ 0xEC then some (3, 0x80, 0xBF)
      else if s0 = 0xED then some (3, 0x80, 0x9F)
      else if s0 ≤ 0xEF then some (3, 0x80, 0xBF)
      else if s0 = 0xF0 then some (4, 0x90, 0xBF)
      else if s0 ≤ 0xF3 then some (4, 0x80, 0xBF)
      else if s0 = 0xF4 then some (4, 0x80, 0x8F)
      else none
    match entry with
    | none => 1
    | some (sz, lo, hi) =>
      if rest.length + 1 < sz then 1
      else match rest with
        | [] => 1
        | s1 :: rest1 =>
          if s1 < lo ∨ hi < s1 then 1
          else if sz ≤ 2 then 2
          else match rest1 with
            | [] => 1
            | s2 :: rest2 =>
              if s2 < 0x80 ∨ 0xBF < s2 then 1
              else if sz ≤ 3 then 3
              else match rest2 with
                | [] => 1
                | s3 :: _ => if s3 < 0x80 ∨ 0xBF < s3 then 1 else 4

/-- The loop of `utf8.RuneCountInString`; `fuel` bounds the number of runes. -/
def runeCountLoop : Nat → GoString → Nat → Nat
  | 0, _, n => n
  | fuel + 1, s, n =>
    if s.length = 0 then n else runeCountLoop fuel (s.drop (runeSize s)) (n + 1)

/-- Embedding of `utf8.RuneCountInString`. -/
def RuneCountInString (s : GoString) : Nat := runeCountLoop s.length s 0

end utf8

namespace strings

/-- Embedding of `strings.HasPrefix`. -/
def HasPrefix (s pre : GoString) : Bool := pre.isPrefixOf s

/-- Scan of `strings.Index`: `i` is the offset of `s` in the string searched. -/
def indexFrom (substr : GoString) : GoString → Nat → Int
  | [], i => if HasPrefix [] substr then (i : Int) else -1
  | c :: t, i => if HasPrefix (c :: t) substr then (i : Int) else indexFrom substr t (i + 1)

/-- Embedding of `strings.Index`: offset of the first instance of `substr` in `s`, or -1. -/
def Index (s substr : GoString) : Int := indexFrom substr s 0

/-- The loop of `strings.Count` for a non-empty `substr`; `fuel` bounds the
number of instances. -/
def countLoop (substr : GoString) : Nat → GoString → Nat → Nat
  | 0, _, n => n
  | fuel + 1, s, n =>
    let i := Index s substr
    if i = -1 then n
    else countLoop substr fuel (s.drop (i.toNat + substr.length)) (n + 1)

/-- Embedding of `strings.Count`: number of non-overlapping instances of `substr` in `s`; for an
empty `substr`, one more than the number of runes. -/
def Count (s substr : GoString) : Nat :=
  if substr.length = 0 then utf8.RuneCountInString s + 1
  else countLoop substr (s.length + 1) s 0

/-- The `for i := 0; i < n; i++` loop of `strings.Replace`: `k` iterations remain,
`b` is the builder. -/
def replaceLoop (s old new : GoString) : Nat → Nat → Nat → GoString → GoString
  | 0, _, start, b => b ++ s.drop start
  | k + 1, i, start, b =>
    let j : Nat :=
      if old.length = 0 then
        if i > 0 then start + utf8.runeSize (s.drop start) else start
      else (start + Index (s.drop start) old).toNat
    replaceLoop s old new k (i + 1) (j + old.length) (b ++ (s.drop start).take (j - start) ++ new)

/-- Embedding of `strings.Replace(s, old, new, n)`. -/
def Replace (s old new : GoString) (n : Int) : GoString :=
  if old = new ∨ n = 0 then s
  else
    let m := Count s old
    if m = 0 then s
    else
      let n : Nat := if n < 0 ∨ (m : Int) < n then m else n.toNat
      replaceLoop s old new n 0 0 []

end strings

/-! ## Values handed to `NewRoot` and types of the packages it wires together -/

/-- Embedding of `chan struct{}`. -/
structure Chan where
  id : Nat
deriving DecidableEq, Repr

/-- An `io.Writer`. -/
structure Writer where
  id : Nat
deriving DecidableEq, Repr

/-- A `UI` value: its identity and the writer its `Writer()` method returns. -/
structure UI where
  id : Nat
  writer : Writer
deriving DecidableEq, Repr

/-- An `AnalyticsClient` value. -/
structure AnalyticsClient where
  id : Nat
deriving DecidableEq, Repr

/-- A `Toggle` value. -/
structure Toggle where
  id : Nat
deriving DecidableEq, Repr

/-- Modelled from the spec: the configuration value.  The type `config.Config` is
declared outside `root.go`: the fields `root.go` reads by name, and the remaining
fields as name/value pairs. -/
structure Config where
  CacheDir : String
  CliVersion : String
  BuildVersion : String
  CFDevDSocketPath : String
  others : List (String × String)
deriving DecidableEq, Repr

/-- A `time.Duration`: nanoseconds. -/
abbrev Duration := Int

namespace time
def Nanosecond : Duration := 1
def Microsecond : Duration := 1000 * Nanosecond
def Millisecond : Duration := 1000 * Microsecond
def Second : Duration := 1000 * Millisecond
end time

/-- Modelled from the spec: the Daemon Runner, the manager of the privileged helper
process.  Its type and `newDaemonRunner` are declared outside `root.go`; a runner is
represented by the configuration `newDaemonRunner` was called with. -/
structure DaemonRunner where
  config : Config
deriving DecidableEq, Repr

/-- Modelled from the spec: the client of the privileged helper used to configure host
networking; package `cfdevd/client` is outside `root.go`.  A client is represented by
the arguments of `cfdevdClient.New`. -/
structure CfdevdClient where
  eofMarker : String
  socketPath : String
deriving DecidableEq, Repr

/-- Embedding of `runner.Powershell{}`. -/
structure Powershell where
deriving DecidableEq, Repr

/-- Modelled from the spec: the three concrete Driver implementations, one per host
operating system.  Packages `driver/hyperkit`, `driver/hyperv` and `driver/kvm` are
outside `root.go`; a backend instance is represented by the constructor call that
built it, `hyperkit.New`, `hyperv.New` or `kvm.New`, with the arguments it received. -/
inductive Backend where
  | hyperkit (config : Config) (daemonRunner : Ptr DaemonRunner) (ui : UI) (cfdevd : Ptr CfdevdClient)
  | hyperv (config : Config) (daemonRunner : Ptr DaemonRunner) (ui : UI) (powershell : Powershell)
      (id1 id2 id3 : String)
  | kvm (config : Config) (daemonRunner : Ptr DaemonRunner) (ui : UI)
deriving DecidableEq, Repr

/-- A `driver.Driver` interface value: `none` is the nil interface. -/
abbrev Driver := Option (Ptr Backend)

/-- Modelled from the spec: the metadata file reader; package `metadata` is outside
`root.go` and `metadata.New` takes no argument. -/
structure MetaDataReader where
deriving DecidableEq, Repr

/-- Modelled from the spec: the progress observer of the Resource Cache; package
`resource/progress` is outside `root.go`.  Represented by the argument of `progress.New`. -/
structure Progress where
  writer : Writer
deriving DecidableEq, Repr

/-- Modelled from the spec: the Provisioner Controller; package `provision` is outside
`root.go`.  Represented by the argument of `provision.NewController`. -/
structure Controller where
  config : Config
deriving DecidableEq, Repr

/-- The function value stored in `resource.Cache.HttpDo`. -/
inductive HttpDo where
  | defaultClientDo
deriving DecidableEq, Repr

structure AnalyticsD where
  Config : Config
  DaemonRunner : Ptr DaemonRunner
deriving DecidableEq, Repr

structure Cache where
  Dir : String
  HttpDo : HttpDo
  Progress : Ptr Progress
  RetryWait : Duration
  Writer : Writer
deriving DecidableEq, Repr

structure Env where
  Config : Config
deriving DecidableEq, Repr

structure Host where
deriving DecidableEq, Repr

structure SystemProfiler where
deriving DecidableEq, Repr

structure Version where
  UI : UI
  Version : String
  BuildVersion : String
  Config : Config
  MetaDataReader : Ptr MetaDataReader
deriving DecidableEq, Repr

structure Bosh where
  Exit : Chan
  UI : UI
  Config : Config
  Analytics : AnalyticsClient
deriving DecidableEq, Repr

structure Catalog where
  UI : UI
  Config : Config
deriving DecidableEq, Repr

structure Download where
  Exit : Chan
  UI : UI
  Config : Config
  Env : Ptr Env
deriving DecidableEq, Repr

structure Telemetry where
  Config : Config
  UI : UI
  Analytics : AnalyticsClient
  AnalyticsToggle : Toggle
  AnalyticsD : Ptr AnalyticsD
deriving DecidableEq, Repr

structure Provision where
  Exit : Chan
  UI : UI
  Provisioner : Ptr Controller
  MetaDataReader : Ptr MetaDataReader
  Config : Config
deriving DecidableEq, Repr

structure Stop where
  Analytics : AnalyticsClient
  Host : Ptr Host
  AnalyticsD : Ptr AnalyticsD
  Driver : Driver
deriving DecidableEq, Repr

structure Start where
  Exit : Chan
  UI : UI
  Config : Config
  Cache : Ptr Cache
  Env : Ptr Env
  Analytics : AnalyticsClient
  AnalyticsToggle : Toggle
  Host : Ptr Host
  Driver : Driver
  AnalyticsD : Ptr AnalyticsD
  Provisioner : Ptr Controller
  Provision : Ptr Provision
  MetaDataReader : Ptr MetaDataReader
  Stop : Ptr Stop
  Profiler : Ptr SystemProfiler
deriving DecidableEq, Repr

structure DeployService where
  UI : UI
  Provisioner : Ptr Controller
  MetaDataReader : Ptr MetaDataReader
  Analytics : AnalyticsClient
  Config : Config
deriving DecidableEq, Repr

/-! ## Calls into the other packages -/

/-- The call `ui.Writer()`. -/
def UI.Writer (ui : UI) : M Writer := do
  call "UI.Writer"
  return ui.writer

/-- Modelled from the spec: `metadata.New()`, a call returns a new reader. -/
def metadata.New : M (Ptr MetaDataReader) := do
  call "metadata.New"
  alloc {}

/-- Modelled from the spec: `newDaemonRunner(config)`, declared in another file of
package `cmd`: a call returns a new runner for `config`. -/
def newDaemonRunner (config : Config) : M (Ptr DaemonRunner) := do
  call "newDaemonRunner"
  alloc { config := config }

/-- Modelled from the spec: `cfdevdClient.New(eofMarker, socketPath)`, a call returns a
new client. -/
def cfdevdClient.New (eofMarker socketPath : String) : M (Ptr CfdevdClient) := do
  call "cfdevdClient.New"
  alloc { eofMarker := eofMarker, socketPath := socketPath }

/-- Modelled from the spec: `hyperkit.New(config, daemonRunner, ui, cfdevd)`, a call
returns a new, non-nil hyperkit driver. -/
def hyperkit.New (config : Config) (daemonRunner : Ptr DaemonRunner) (ui : UI)
    (cfdevd : Ptr CfdevdClient) : M Driver := do
  call "hyperkit.New"
  let d ← alloc (Backend.hyperkit config daemonRunner ui cfdevd)
  return some d

/-- Modelled from the spec: `hyperv.New(config, daemonRunner, ui, powershell, id1, id2, id3)`,
a call returns a new, non-nil hyperv driver. -/
def hyperv.New (config : Config) (daemonRunner : Ptr DaemonRunner) (ui : UI)
    (powershell : Powershell) (id1 id2 id3 : String) : M Driver := do
  call "hyperv.New"
  let d ← alloc (Backend.hyperv config daemonRunner ui powershell id1 id2 id3)
  return some d

/-- Modelled from the spec: `kvm.New(config, daemonRunner, ui)`, a call returns a new,
non-nil kvm driver. -/
def kvm.New (config : Config) (daemonRunner : Ptr DaemonRunner) (ui : UI) : M Driver := do
  call "kvm.New"
  let d ← alloc (Backend.kvm config daemonRunner ui)
  return some d

/-- Modelled from the spec: `progress.New(writer)`, a call returns a new observer. -/
def progress.New (writer : Writer) : M (Ptr Progress) := do
  call "progress.New"
  alloc { writer := writer }

/-- Modelled from the spec: `provision.NewController(config)`, a call returns a new
controller. -/
def provision.NewController (config : Config) : M (Ptr Controller) := do
  call "provision.NewController"
  alloc { config := config }

/-- Name of a `Cmd()` method in the trace. -/
def CmdKind.callName : CmdKind → String
  | .version => "Version.Cmd"
  | .bosh => "Bosh.Cmd"
  | .catalog => "Catalog.Cmd"
  | .download => "Download.Cmd"
  | .start => "Start.Cmd"
  | .stop => "Stop.Cmd"
  | .telemetry => "Telemetry.Cmd"
  | .provision => "Provision.Cmd"
  | .deployService => "DeployService.Cmd"

/-- Modelled from the spec: `recv.Cmd()` for a receiver of the given kind.  The `Cmd`
methods are declared in the sub-command packages, outside `root.go`; a call returns a
new command that remembers its receiver. -/
def Cmd {α : Type} (kind : CmdKind) (recv : Ptr α) : M CmdRef := do
  call kind.callName
  let c ← alloc ()
  return CmdRef.method kind recv.addr c.addr

/-! ## `root.go` -/

/-- Embedding of `newDriver(ui, config)`; `goos` is `runtime.GOOS`. -/
def newDriver (goos : String) (ui : UI) (config : Config) : M Driver := do
  call "newDriver"
  let daemonRunner ← newDaemonRunner config
  if goos = "darwin" then
    let cfdevd ← cfdevdClient.New "CFD3V" config.CFDevDSocketPath
    hyperkit.New config daemonRunner ui cfdevd
  else if goos = "windows" then
    hyperv.New config daemonRunner ui {}
      "7207f451-2ca3-4b88-8d01-820a21d78293"
      "cc2a519a-fb40-4e45-a9f1-c7f04c5ad7fa"
      "e3ae8f06-8c25-47fb-b6ed-c20702bcef5e"
  else if goos = "linux" then
    kvm.New config daemonRunner ui
  else
    return none

/-- The line `NewRoot` removes from the usage template. -/
def helpHintLine : GoString :=
  bytes "\n" ++ bytes "Use \"\x7b\x7b.CommandPath\x7d\x7d [command] --help\" for more information about a command."

/-- The local variables of `NewRoot` at its `return`, and the returned `root`. -/
structure RootEnv where
  root : Nat
  usageTemplate : GoString
  writer : Writer
  metaDataReader : Ptr MetaDataReader
  driver : Driver
  analyticsD : Ptr AnalyticsD
  cache : Ptr Cache
  dev : Nat
  version : Ptr Version
  bosh : Ptr Bosh
  catalog : Ptr Catalog
  download : Ptr Download
  telemetryCmd : Ptr Telemetry
  prvsn : Ptr Provision
  stop : Ptr Stop
  start : Ptr Start
  deployService : Ptr DeployService
  helpCmd : Nat
deriving DecidableEq, Repr

/-- Embedding of `NewRoot(exit, ui, config, analyticsClient, analyticsToggle)`; `goos` is
`runtime.GOOS` and `dflt` is the usage template built into cobra. -/
def NewRoot (goos : String) (dflt : GoString) (exit : Chan) (ui : UI) (config : Config)
    (analyticsClient : AnalyticsClient) (analyticsToggle : Toggle) : M RootEnv := do
  let root ← newCommand
    { Use := "cf", Short := "", SilenceUsage := true, SilenceErrors := true, Run := none,
      usageTemplate := [], pflags := [], commands := [] }
  PersistentFlagsBool root "help" false ""
  PersistentFlagsHide root "help"

  let w ← get
  let usageTemplate := strings.Replace (UsageTemplate dflt w w.next root)
    helpHintLine (bytes "") (-1)
  SetUsageTemplate root usageTemplate

  let writer ← ui.Writer
  let metaDataReader ← metadata.New
  let driver ← newDriver goos ui config
  let analyticsD ← do
    let daemonRunner ← newDaemonRunner config
    alloc ({ Config := config, DaemonRunner := daemonRunner } : AnalyticsD)
  let cache ← do
    let progress ← progress.New writer
    alloc ({ Dir := config.CacheDir, HttpDo := HttpDo.defaultClientDo, Progress := progress,
             RetryWait := time.Second, Writer := writer } : Cache)

  let dev ← newCommand
    { Use := "dev",
      Short := "Start and stop a single vm CF deployment running on your workstation",
      SilenceUsage := true, SilenceErrors := true, Run := none,
      usageTemplate := [], pflags := [], commands := [] }

  let version ← alloc
    ({ UI := ui, Version := config.CliVersion, BuildVersion := config.BuildVersion,
       Config := config, MetaDataReader := metaDataReader } : Version)

  let bosh ← alloc
    ({ Exit := exit, UI := ui, Config := config, Analytics := analyticsClient } : Bosh)

  let catalog ← alloc ({ UI := ui, Config := config } : Catalog)

  let download ← do
    let env ← alloc ({ Config := config } : Env)
    alloc ({ Exit := exit, UI := ui, Config := config, Env := env } : Download)

  let telemetryCmd ← alloc
    ({ Config := config, UI := ui, Analytics := analyticsClient,
       AnalyticsToggle := analyticsToggle, AnalyticsD := analyticsD } : Telemetry)

  let prvsn ← do
    let provisioner ← provision.NewController config
    alloc ({ Exit := exit, UI := ui, Provisioner := provisioner,
             MetaDataReader := metaDataReader, Config := config } : Provision)

  let stop ← do
    let host ← alloc ({} : Host)
    alloc ({ Analytics := analyticsClient, Host := host, AnalyticsD := analyticsD,
             Driver := driver } : Stop)

  let start ← do
    let env ← alloc ({ Config := config } : Env)
    let host ← alloc ({} : Host)
    let provisioner ← provision.NewController config
    let profiler ← alloc ({} : SystemProfiler)
    alloc ({ Exit := exit, UI := ui, Config := config, Cache := cache, Env := env,
             Analytics := analyticsClient, AnalyticsToggle := analyticsToggle, Host := host,
             Driver := driver, AnalyticsD := analyticsD, Provisioner := provisioner,
             Provision := prvsn, MetaDataReader := metaDataReader, Stop := stop,
             Profiler := profiler } : Start)

  let deployService ← do
    let provisioner ← provision.NewController config
    alloc ({ UI := ui, Provisioner := provisioner, MetaDataReader := metaDataReader,
             Analytics := analyticsClient, Config := config } : DeployService)

  let helpCmd ← newCommand
    { Use := "help [command]", Short := "Help about any command",
      SilenceUsage := false, SilenceErrors := false, Run := some (RunFn.findAndHelp dev),
      usageTemplate := [], pflags := [], commands := [] }

  AddCommand root (CmdRef.lit dev)
  AddCommand dev (← Cmd CmdKind.version version)
  AddCommand dev (← Cmd CmdKind.bosh bosh)
  AddCommand dev (← Cmd CmdKind.catalog catalog)
  AddCommand dev (← Cmd CmdKind.download download)
  AddCommand dev (← Cmd CmdKind.start start)
  AddCommand dev (← Cmd CmdKind.stop stop)
  AddCommand dev (← Cmd CmdKind.telemetry telemetryCmd)
  AddCommand dev (← Cmd CmdKind.provision prvsn)
  AddCommand dev (← Cmd CmdKind.deployService deployService)
  AddCommand dev (CmdRef.lit helpCmd)
  return { root, usageTemplate, writer, metaDataReader, driver, analyticsD, cache, dev,
           version, bosh, catalog, download, telemetryCmd, prvsn, stop, start,
           deployService, helpCmd }

/-- The empty world a process starts from. -/
def World.init : World :=
  { next := 0, calls := [], cmds := fun _ => none, parents := fun _ => none }

/-! ## Observations used in the statements -/

/-- The three driver backends. -/
inductive BackendKind where
  | hyperkit | hyperv | kvm
deriving DecidableEq, Repr

/-- Which backend a driver instance is. -/
def Backend.kind : Backend → BackendKind
  | .hyperkit .. => .hyperkit
  | .hyperv .. => .hyperv
  | .kvm .. => .kvm

/-- The backend a `driver.Driver` value holds; `none` for the nil interface. -/
def backendOf (d : Driver) : Option BackendKind := d.map (fun p => p.val.kind)

/-- The network-topology identifiers a backend was constructed with. -/
def Backend.topologyIDs : Backend → List String
  | .hyperkit .. => []
  | .hyperv _ _ _ _ id1 id2 id3 => [id1, id2, id3]
  | .kvm .. => []

/-- The daemon runner a backend was constructed with. -/
def Backend.daemonRunner : Backend → Ptr DaemonRunner
  | .hyperkit _ r _ _ => r
  | .hyperv _ r _ _ _ _ _ => r
  | .kvm _ r _ => r

/-- The usage template stored on the command at `c`. -/
def installedUsageTemplate (w : World) (c : Nat) : GoString :=
  match w.cmds c with
  | some k => k.usageTemplate
  | none => []

/-- Addresses not handed out yet hold no command and have no parent. -/
def World.WF (w : World) : Prop :=
  ∀ a, w.next ≤ a → w.cmds a = none ∧ w.parents a = none

/-! Concrete inputs for the closed statements. -/

/-- An exit channel. -/
def sampleExit : Chan := ⟨0⟩
/-- A user interface writing to writer 2. -/
def sampleUI : UI := ⟨1, ⟨2⟩⟩
/-- A configuration. -/
def sampleConfig : Config :=
  { CacheDir := "/home/u/.cfdev/cache", CliVersion := "0.0.1", BuildVersion := "dev",
    CFDevDSocketPath := "/var/tmp/cfdevd.socket", others := [("CFDevHome", "/home/u/.cfdev")] }
/-- An analytics client. -/
def sampleAnalytics : AnalyticsClient := ⟨3⟩
/-- An analytics toggle. -/
def sampleToggle : Toggle := ⟨4⟩
/-- A usage template that ends in the help hint. -/
def sampleTemplate : GoString :=
  bytes "Usage:\n  \x7b\x7b.UseLine\x7d\x7d\nUse \"\x7b\x7b.CommandPath\x7d\x7d [command] --help\" for more information about a command.\n"

/-- Number of objects a call of `newDriver` allocates. -/
def driverAllocs (goos : String) : Nat :=
  if goos = "darwin" then 3 else if goos = "windows" then 2 else if goos = "linux" then 2 else 1

/-- Calls `newDriver` makes after `newDaemonRunner`. -/
def driverCalls (goos : String) : List String :=
  if goos = "darwin" then ["cfdevdClient.New", "hyperkit.New"]
  else if goos = "windows" then ["hyperv.New"]
  else if goos = "linux" then ["kvm.New"]
  else []

/-! ## Running the construction monad -/

theorem bind_run {α β : Type} (x : M α) (f : α → M β) (w : World) :
    (x >>= f) w = f (x w).1 (x w).2 := rfl

theorem pure_run {α : Type} (a : α) (w : World) : (pure a : M α) w = (a, w) := rfl

theorem get_run (w : World) : (get : M World) w = (w, w) := rfl

theorem map_run {α β : Type} (f : α → β) (x : M α) (w : World) :
    (f <$> x) w = (f (x w).1, (x w).2) := rfl

section Frame

variable {α : Type} (v : α) (s : String) (c : Command) (a b : Nat) (f : Command → Command)
  (x : CmdRef) (w : World)

theorem alloc_val : (alloc v w).1 = ⟨w.next, v⟩ := rfl
theorem alloc_next : (alloc v w).2.next = w.next + 1 := rfl
theorem alloc_calls : (alloc v w).2.calls = w.calls := rfl
theorem alloc_cmds : (alloc v w).2.cmds = w.cmds := rfl
theorem alloc_parents : (alloc v w).2.parents = w.parents := rfl

theorem call_next : (call s w).2.next = w.next := rfl
theorem call_calls : (call s w).2.calls = w.calls ++ [s] := rfl
theorem call_cmds : (call s w).2.cmds = w.cmds := rfl
theorem call_parents : (call s w).2.parents = w.parents := rfl

theorem newCommand_val : (newCommand c w).1 = w.next := rfl
theorem newCommand_next : (newCommand c w).2.next = w.next + 1 := rfl
theorem newCommand_calls : (newCommand c w).2.calls = w.calls := rfl
theorem newCommand_parents : (newCommand c w).2.parents = w.parents := rfl
theorem newCommand_cmds :
    (newCommand c w).2.cmds a = if a = w.next then some c else w.cmds a := rfl

theorem modifyCmd_next : (modifyCmd a f w).2.next = w.next := rfl
theorem modifyCmd_calls : (modifyCmd a f w).2.calls = w.calls := rfl
theorem modifyCmd_parents : (modifyCmd a f w).2.parents = w.parents := rfl
theorem modifyCmd_cmds :
    (modifyCmd a f w).2.cmds b = if b = a then (w.cmds b).map f else w.cmds b := rfl

theorem AddCommand_next : (AddCommand a x w).2.next = w.next := rfl
theorem AddCommand_calls : (AddCommand a x w).2.calls = w.calls := rfl
theorem AddCommand_parents :
    (AddCommand a x w).2.parents b = if b = x.addr then some a else w.parents b := rfl
theorem AddCommand_cmds :
    (AddCommand a x w).2.cmds b
      = if b = a then (w.cmds b).map (fun k => { k with commands := k.commands ++ [x] })
        else w.cmds b := rfl

end Frame

/-! ## What `newDriver` does to the world -/

theorem newDriver_unsupported (goos : String) (ui : UI) (config : Config) (w : World)
    (h1 : goos ≠ "darwin") (h2 : goos ≠ "windows") (h3 : goos ≠ "linux") :
    newDriver goos ui config w
      = (none, { w with next := w.next + 1, calls := w.calls ++ ["newDriver", "newDaemonRunner"] }) := by
  unfold newDriver
  simp only [h1, h2, h3, if_false, bind_run]
  simp [call, alloc, newDaemonRunner, bind_run, pure_run]

theorem newDriver_next (goos : String) (ui : UI) (config : Config) (w : World) :
    (newDriver goos ui config w).2.next = w.next + driverAllocs goos := by
  by_cases h1 : goos = "darwin"
  · subst h1; rfl
  · by_cases h2 : goos = "windows"
    · subst h2; rfl
    · by_cases h3 : goos = "linux"
      · subst h3; rfl
      · rw [newDriver_unsupported goos ui config w h1 h2 h3]
        simp [driverAllocs, h1, h2, h3]

theorem newDriver_cmds (goos : String) (ui : UI) (config : Config) (w : World) :
    (newDriver goos ui config w).2.cmds = w.cmds := by
  by_cases h1 : goos = "darwin"
  · subst h1; rfl
  · by_cases h2 : goos = "windows"
    · subst h2; rfl
    · by_cases h3 : goos = "linux"
      · subst h3; rfl
      · rw [newDriver_unsupported goos ui config w h1 h2 h3]

theorem newDriver_parents (goos : String) (ui : UI) (config : Config) (w : World) :
    (newDriver goos ui config w).2.parents = w.parents := by
  by_cases h1 : goos = "darwin"
  · subst h1; rfl
  · by_cases h2 : goos = "windows"
    · subst h2; rfl
    · by_cases h3 : goos = "linux"
      · subst h3; rfl
      · rw [newDriver_unsupported goos ui config w h1 h2 h3]

theorem newDriver_calls (goos : String) (ui : UI) (config : Config) (w : World) :
    (newDriver goos ui config w).2.calls
      = w.calls ++ (["newDriver", "newDaemonRunner"] ++ driverCalls goos) := by
  by_cases h1 : goos = "darwin"
  · subst h1
    simp [newDriver, driverCalls, bind_run, call, alloc, newDaemonRunner, cfdevdClient.New,
      hyperkit.New, pure_run, map_run]
  · by_cases h2 : goos = "windows"
    · subst h2
      simp [newDriver, driverCalls, bind_run, call, alloc, newDaemonRunner, hyperv.New, pure_run, map_run]
    · by_cases h3 : goos = "linux"
      · subst h3
        simp [newDriver, driverCalls, bind_run, call, alloc, newDaemonRunner, kvm.New, pure_run, map_run]
      · rw [newDriver_unsupported goos ui config w h1 h2 h3]
        simp [driverCalls, h1, h2, h3]

/-! ## `strings.Replace` with an empty replacement -/

namespace strings

theorem HasPrefix_iff (s pre : GoString) : HasPrefix s pre = true ↔ pre <+: s := by
  unfold HasPrefix
  exact List.isPrefixOf_iff_prefix

theorem indexFrom_spec (old : GoString) (hold : old ≠ []) (t : GoString) (i : Nat) :
    (indexFrom old t i = -1 ∧ ¬ old <:+: t) ∨
      ∃ pre rest, t = pre ++ old ++ rest ∧ ¬ old <:+: pre ∧
        indexFrom old t i = ((i + pre.length : Nat) : Int) := by
  have hnil : ¬ old <:+: [] := fun h => hold (List.infix_nil.1 h)
  induction t generalizing i with
  | nil =>
    unfold indexFrom
    by_cases h : HasPrefix [] old = true
    · right
      have h2 := (HasPrefix_iff _ _).1 h
      have h3 : old = [] := List.prefix_nil.1 h2
      exact absurd h3 hold
    · left
      refine ⟨by simp [h], ?_⟩
      intro hin
      apply h
      rw [HasPrefix_iff]
      have : old = [] := List.infix_nil.1 hin
      simp [this]
  | cons c t ih =>
    unfold indexFrom
    by_cases h : HasPrefix (c :: t) old = true
    · right
      obtain ⟨rest, hrest⟩ := (HasPrefix_iff _ _).1 h
      exact ⟨[], rest, by simp [hrest], hnil, by simp [h]⟩
    · rcases ih (i + 1) with ⟨h1, h2⟩ | ⟨pre, rest, h1, hpre, h2⟩
      · left
        refine ⟨by simp [h, h1], ?_⟩
        intro hin
        rcases List.infix_cons_iff.1 hin with h3 | h3
        · exact h ((HasPrefix_iff _ _).2 h3)
        · exact h2 h3
      · right
        refine ⟨c :: pre, rest, by simp [h1], ?_, ?_⟩
        · intro hin
          rcases List.infix_cons_iff.1 hin with h3 | h3
          · apply h
            rw [HasPrefix_iff, h1]
            exact h3.trans ⟨old ++ rest, by simp⟩
          · exact hpre h3
        · simp only [h, Bool.false_eq_true, if_false, h2, List.length_cons]
          congr 1
          omega

theorem Index_spec (t old : GoString) (hold : old ≠ []) :
    (Index t old = -1 ∧ ¬ old <:+: t) ∨
      ∃ pre rest, t = pre ++ old ++ rest ∧ ¬ old <:+: pre ∧ Index t old = (pre.length : Int) := by
  rcases indexFrom_spec old hold t 0 with h | ⟨pre, rest, h1, hpre, h2⟩
  · exact Or.inl h
  · exact Or.inr ⟨pre, rest, h1, hpre, by simpa [Index] using h2⟩

theorem countLoop_acc (old : GoString) (f : Nat) (t : GoString) (n : Nat) :
    countLoop old f t n = n + countLoop old f t 0 := by
  induction f generalizing t n with
  | zero => simp [countLoop]
  | succ f ih =>
    unfold countLoop
    by_cases h : Index t old = -1
    · simp [h]
    · simp only [h, if_false]
      rw [ih _ (n + 1), ih _ (0 + 1)]
      omega

theorem intercalate_cons (old pre : GoString) (ps : List GoString) (hps : ps ≠ []) :
    List.intercalate old (pre :: ps) = pre ++ old ++ List.intercalate old ps := by
  cases ps with
  | nil => exact absurd rfl hps
  | cons q qs => simp [List.intercalate, List.intersperse]

theorem replaceLoop_succ (s old new : GoString) (hold : old.length ≠ 0) (k i start : Nat)
    (b : GoString) :
    replaceLoop s old new (k + 1) i start b
      = replaceLoop s old new k (i + 1) ((start + Index (s.drop start) old).toNat + old.length)
          (b ++ (s.drop start).take ((start + Index (s.drop start) old).toNat - start) ++ new) := by
  simp [replaceLoop, hold]

theorem replaceLoop_delete (s old : GoString) (hold : old ≠ []) (f : Nat) :
    ∀ (t : GoString) (start i : Nat) (b : GoString), s.drop start = t →
      ∃ ps : List GoString, ps ≠ [] ∧ t = List.intercalate old ps ∧
        replaceLoop s old [] (countLoop old f t 0) i start b = b ++ ps.flatten ∧
        (t.length < f → ∀ q ∈ ps, ¬ old <:+: q) := by
  have hlen : old.length ≠ 0 := fun h => hold (List.length_eq_zero.1 h)
  induction f with
  | zero =>
    intro t start i b ht
    refine ⟨[t], by simp, by simp [List.intercalate], ?_, by omega⟩
    simp [countLoop, replaceLoop, ht]
  | succ f ih =>
    intro t start i b ht
    rcases Index_spec t old hold with ⟨h1, hno⟩ | ⟨pre, rest, h1, hpre, h2⟩
    · refine ⟨[t], by simp, by simp [List.intercalate], ?_, fun _ => by simpa using hno⟩
      simp [countLoop, replaceLoop, ht, h1]
    · have hne : Index t old ≠ -1 := by rw [h2]; omega
      have hdrop : s.drop (start + pre.length + old.length) = rest := by
        rw [Nat.add_assoc, ← List.drop_drop, ht, h1]
        simp [List.append_assoc]
      have hdrop2 : t.drop ((Index t old).toNat + old.length) = rest := by
        rw [h2, h1]
        simp [List.append_assoc]
      obtain ⟨ps, hps, hrest, hloop, hclean⟩ :=
        ih rest (start + pre.length + old.length) (i + 1) (b ++ pre) hdrop
      refine ⟨pre :: ps, by simp, ?_, ?_, ?_⟩
      · rw [intercalate_cons old pre ps hps, ← hrest, h1]
      · have hcount : countLoop old (f + 1) t 0 = countLoop old f rest 0 + 1 := by
          rw [countLoop]
          simp only [hne, if_false, hdrop2]
          rw [countLoop_acc]
          omega
        have hj : (start + Index (s.drop start) old).toNat = start + pre.length := by
          rw [ht, h2]; omega
        have htake : (s.drop start).take (start + pre.length - start) = pre := by
          rw [ht, h1]
          simp [List.append_assoc]
        rw [hcount, replaceLoop_succ s old [] hlen, hj, htake, List.append_nil, hloop]
        simp
      · intro hlt q hq
        have hlt2 : rest.length < f := by
          have : t.length = pre.length + old.length + rest.length := by
            rw [h1]; simp [Nat.add_assoc]
          omega
        rcases List.mem_cons.1 hq with hq | hq
        · rw [hq]; exact hpre
        · exact hclean hlt2 q hq

/-- Deleting every instance of a non-empty `old`: the string splits into pieces around
the deleted instances, the result is the pieces put together, and no piece holds an
instance. -/
theorem Replace_delete (s old : GoString) (hold : old ≠ []) :
    ∃ ps : List GoString, ps ≠ [] ∧ s = List.intercalate old ps ∧
      Replace s old [] (-1) = ps.flatten ∧ ∀ q ∈ ps, ¬ old <:+: q := by
  have hlen : old.length ≠ 0 := fun h => hold (List.length_eq_zero.1 h)
  obtain ⟨ps, hps, hs, hloop, hclean⟩ :=
    replaceLoop_delete s old hold (s.length + 1) s 0 0 [] rfl
  refine ⟨ps, hps, hs, ?_, hclean (by omega)⟩
  unfold Replace
  simp only [hold, false_or, Count, hlen, if_false]
  by_cases hm : countLoop old (s.length + 1) s 0 = 0
  · rw [hm] at hloop
    simp only [replaceLoop, List.drop_zero, List.nil_append] at hloop
    simp [hm, ← hloop]
  · simp [hm, hloop]

theorem Replace_absent (s old new : GoString) (n : Int) (h : ¬ old <:+: s) :
    Replace s old new n = s := by
  have hold : old.length ≠ 0 := by
    intro h0
    apply h
    rw [List.length_eq_zero.1 h0]
    exact List.nil_infix
  have hne : old ≠ [] := fun h0 => hold (by rw [h0]; rfl)
  have hidx : Index s old = -1 := by
    rcases Index_spec s old hne with ⟨h1, _⟩ | ⟨pre, rest, h1, _⟩
    · exact h1
    · exact absurd ⟨pre, rest, h1.symm⟩ h
  unfold Replace
  by_cases h1 : old = new ∨ n = 0
  · simp [h1]
  · simp [h1, Count, hold, countLoop, hidx]

theorem length_intercalate (old : GoString) (ps : List GoString) (hps : ps ≠ []) :
    (List.intercalate old ps).length = ps.flatten.length + (ps.length - 1) * old.length := by
  induction ps with
  | nil => exact absurd rfl hps
  | cons p qs ih =>
    cases qs with
    | nil => simp [List.intercalate]
    | cons q qs =>
      rw [intercalate_cons old p (q :: qs) (by simp), List.length_append, List.length_append,
        ih (by simp)]
      simp only [List.flatten_cons, List.length_append, List.length_cons]
      have : (qs.length + 1 + 1 - 1) * old.length = (qs.length + 1 - 1) * old.length + old.length := by
        simp [Nat.add_mul]
      omega

end strings

/-! ## The world `NewRoot` leaves behind -/

set_option maxRecDepth 100000 in
theorem NewRoot_root_cmd (goos : String) (dflt : GoString) (exit : Chan) (ui : UI) (config : Config)
    (ac : AnalyticsClient) (tg : Toggle) (w0 : World) :
    (NewRoot goos dflt exit ui config ac tg w0).2.cmds (NewRoot goos dflt exit ui config ac tg w0).1.root
      = some { Use := "cf", Short := "", SilenceUsage := true, SilenceErrors := true, Run := none,
               usageTemplate := (NewRoot goos dflt exit ui config ac tg w0).1.usageTemplate,
               pflags := [{ Name := "help", DefValue := "false", Usage := "", Hidden := true }],
               commands := [CmdRef.lit (NewRoot goos dflt exit ui config ac tg w0).1.dev] } := by
  simp only [NewRoot, bind_run, pure_run, get_run, UI.Writer, metadata.New, newDaemonRunner, progress.New,
    provision.NewController, Cmd, PersistentFlagsBool, PersistentFlagsHide, SetUsageTemplate,
    alloc_val, alloc_next, alloc_calls, alloc_cmds, alloc_parents, call_next, call_calls, call_cmds, call_parents,
    newCommand_val, newCommand_next, newCommand_calls, newCommand_parents, newCommand_cmds,
    modifyCmd_next, modifyCmd_calls, modifyCmd_parents, modifyCmd_cmds,
    AddCommand_next, AddCommand_calls, AddCommand_parents, AddCommand_cmds,
    newDriver_next, newDriver_cmds, newDriver_parents]
  have e1 : ¬ (w0.next = w0.next + 1 + 1 + driverAllocs goos + 1 + 1 + 1 + 1) := by omega
  simp only [e1, if_false, if_true, Option.map_some', List.nil_append, List.map_cons, List.map_nil, List.cons_append]
  rw [if_neg (by omega)]
  rfl

set_option maxRecDepth 100000 in
theorem NewRoot_dev_cmd (goos : String) (dflt : GoString) (exit : Chan) (ui : UI) (config : Config)
    (ac : AnalyticsClient) (tg : Toggle) (w0 : World) :
    (NewRoot goos dflt exit ui config ac tg w0).2.cmds (NewRoot goos dflt exit ui config ac tg w0).1.dev
      = some { Use := "dev",
               Short := "Start and stop a single vm CF deployment running on your workstation",
               SilenceUsage := true, SilenceErrors := true, Run := none,
               usageTemplate := [], pflags := [],
               commands :=
                 [CmdRef.method CmdKind.version (NewRoot goos dflt exit ui config ac tg w0).1.version.addr
                    ((NewRoot goos dflt exit ui config ac tg w0).1.helpCmd + 1),
                  CmdRef.method CmdKind.bosh (NewRoot goos dflt exit ui config ac tg w0).1.bosh.addr
                    ((NewRoot goos dflt exit ui config ac tg w0).1.helpCmd + 2),
                  CmdRef.method CmdKind.catalog (NewRoot goos dflt exit ui config ac tg w0).1.catalog.addr
                    ((NewRoot goos dflt exit ui config ac tg w0).1.helpCmd + 3),
                  CmdRef.method CmdKind.download (NewRoot goos dflt exit ui config ac tg w0).1.download.addr
                    ((NewRoot goos dflt exit ui config ac tg w0).1.helpCmd + 4),
                  CmdRef.method CmdKind.start (NewRoot goos dflt exit ui config ac tg w0).1.start.addr
                    ((NewRoot goos dflt exit ui config ac tg w0).1.helpCmd + 5),
                  CmdRef.method CmdKind.stop (NewRoot goos dflt exit ui config ac tg w0).1.stop.addr
                    ((NewRoot goos dflt exit ui config ac tg w0).1.helpCmd + 6),
                  CmdRef.method CmdKind.telemetry (NewRoot goos dflt exit ui config ac tg w0).1.telemetryCmd.addr
                    ((NewRoot goos dflt exit ui config ac tg w0).1.helpCmd + 7),
                  CmdRef.method CmdKind.provision (NewRoot goos dflt exit ui config ac tg w0).1.prvsn.addr
                    ((NewRoot goos dflt exit ui config ac tg w0).1.helpCmd + 8),
                  CmdRef.method CmdKind.deployService (NewRoot goos dflt exit ui config ac tg w0).1.deployService.addr
                    ((NewRoot goos dflt exit ui config ac tg w0).1.helpCmd + 9),
                  CmdRef.lit (NewRoot goos dflt exit ui config ac tg w0).1.helpCmd] } := by
  simp only [NewRoot, bind_run, pure_run, get_run, UI.Writer, metadata.New, newDaemonRunner, progress.New,
    provision.NewController, Cmd, PersistentFlagsBool, PersistentFlagsHide, SetUsageTemplate,
    alloc_val, alloc_next, alloc_calls, alloc_cmds, alloc_parents, call_next, call_calls, call_cmds, call_parents,
    newCommand_val, newCommand_next, newCommand_calls, newCommand_parents, newCommand_cmds,
    modifyCmd_next, modifyCmd_calls, modifyCmd_parents, modifyCmd_cmds,
    AddCommand_next, AddCommand_calls, AddCommand_parents, AddCommand_cmds,
    newDriver_next, newDriver_cmds, newDriver_parents]
  have e1 : ¬ (w0.next + 1 + 1 + driverAllocs goos + 1 + 1 + 1 + 1 = w0.next) := by omega
  simp only [e1, if_false, if_true, Option.map_some', List.nil_append, List.map_cons, List.map_nil, List.cons_append]
  rw [if_neg (by omega)]
  rfl

set_option maxRecDepth 100000 in
theorem NewRoot_help_cmd (goos : String) (dflt : GoString) (exit : Chan) (ui : UI) (config : Config)
    (ac : AnalyticsClient) (tg : Toggle) (w0 : World) :
    (NewRoot goos dflt exit ui config ac tg w0).2.cmds (NewRoot goos dflt exit ui config ac tg w0).1.helpCmd
      = some { Use := "help [command]", Short := "Help about any command",
               SilenceUsage := false, SilenceErrors := false,
               Run := some (RunFn.findAndHelp (NewRoot goos dflt exit ui config ac tg w0).1.dev),
               usageTemplate := [], pflags := [], commands := [] } := by
  simp only [NewRoot, bind_run, pure_run, get_run, UI.Writer, metadata.New, newDaemonRunner, progress.New,
    provision.NewController, Cmd, PersistentFlagsBool, PersistentFlagsHide, SetUsageTemplate,
    alloc_val, alloc_next, alloc_calls, alloc_cmds, alloc_parents, call_next, call_calls, call_cmds, call_parents,
    newCommand_val, newCommand_next, newCommand_calls, newCommand_parents, newCommand_cmds,
    modifyCmd_next, modifyCmd_calls, modifyCmd_parents, modifyCmd_cmds,
    AddCommand_next, AddCommand_calls, AddCommand_parents, AddCommand_cmds,
    newDriver_next, newDriver_cmds, newDriver_parents]
  simp [Nat.add_assoc]

set_option maxRecDepth 100000 in
theorem NewRoot_calls (goos : String) (dflt : GoString) (exit : Chan) (ui : UI) (config : Config)
    (ac : AnalyticsClient) (tg : Toggle) (w0 : World) :
    (NewRoot goos dflt exit ui config ac tg w0).2.calls
      = w0.calls ++ (["UI.Writer", "metadata.New", "newDriver", "newDaemonRunner"] ++ driverCalls goos
          ++ ["newDaemonRunner", "progress.New", "provision.NewController", "provision.NewController",
              "provision.NewController", "Version.Cmd", "Bosh.Cmd", "Catalog.Cmd", "Download.Cmd",
              "Start.Cmd", "Stop.Cmd", "Telemetry.Cmd", "Provision.Cmd", "DeployService.Cmd"]) := by
  simp only [NewRoot, bind_run, pure_run, get_run, UI.Writer, metadata.New, newDaemonRunner, progress.New,
    provision.NewController, Cmd, PersistentFlagsBool, PersistentFlagsHide, SetUsageTemplate,
    alloc_val, alloc_next, alloc_calls, alloc_cmds, alloc_parents, call_next, call_calls, call_cmds, call_parents,
    newCommand_val, newCommand_next, newCommand_calls, newCommand_parents, newCommand_cmds,
    modifyCmd_next, modifyCmd_calls, modifyCmd_parents, modifyCmd_cmds,
    AddCommand_next, AddCommand_calls, AddCommand_parents, AddCommand_cmds,
    newDriver_next, newDriver_cmds, newDriver_parents, newDriver_calls, CmdKind.callName]
  simp only [List.append_assoc, List.cons_append, List.nil_append]

/-! ## The claims -/

theorem World.init_WF : World.init.WF := fun _ _ => ⟨rfl, rfl⟩

set_option maxRecDepth 100000 in
theorem NewRoot_usageTemplate (goos : String) (dflt : GoString) (exit : Chan) (ui : UI)
    (config : Config) (ac : AnalyticsClient) (tg : Toggle) (w0 : World) (hw : w0.WF) :
    (NewRoot goos dflt exit ui config ac tg w0).1.usageTemplate
      = strings.Replace dflt helpHintLine [] (-1) := by
  have hp : w0.parents w0.next = none := (hw w0.next (Nat.le_refl _)).2
  simp only [NewRoot, bind_run, pure_run, get_run, PersistentFlagsBool, PersistentFlagsHide,
    newCommand_val, newCommand_next, modifyCmd_next]
  simp [UsageTemplate, modifyCmd, newCommand, hp]
  rfl

theorem installed_template (goos : String) (dflt : GoString) (exit : Chan) (ui : UI)
    (config : Config) (ac : AnalyticsClient) (tg : Toggle) (w0 : World) (hw : w0.WF) :
    installedUsageTemplate (NewRoot goos dflt exit ui config ac tg w0).2
        (NewRoot goos dflt exit ui config ac tg w0).1.root
      = strings.Replace dflt helpHintLine [] (-1) := by
  unfold installedUsageTemplate
  rw [NewRoot_root_cmd, NewRoot_usageTemplate goos dflt exit ui config ac tg w0 hw]


theorem count_driverCalls (goos : String) :
    (driverCalls goos).count "newDriver" = 0 ∧
      (driverCalls goos).count "hyperkit.New" + (driverCalls goos).count "hyperv.New"
        + (driverCalls goos).count "kvm.New" ≤ 1 := by
  unfold driverCalls
  split_ifs <;> decide

/-- C1 (as the code behaves): on a host platform that is none of "darwin", "windows" and
"linux", `newDriver` returns the nil `Driver` after building only a daemon runner, and that nil
is the `Driver` of the Start and Stop commands `NewRoot` builds. -/
theorem newDriver_nil_on_unsupported (goos : String) (ui : UI) (config : Config)
    (h1 : goos ≠ "darwin") (h2 : goos ≠ "windows") (h3 : goos ≠ "linux") :
    (∀ w : World, (newDriver goos ui config w).1 = none ∧
        (newDriver goos ui config w).2.calls = w.calls ++ ["newDriver", "newDaemonRunner"]) ∧
      ∀ (dflt : GoString) (exit : Chan) (ac : AnalyticsClient) (tg : Toggle) (w0 : World),
        (NewRoot goos dflt exit ui config ac tg w0).1.driver = none ∧
        (NewRoot goos dflt exit ui config ac tg w0).1.start.val.Driver = none ∧
        (NewRoot goos dflt exit ui config ac tg w0).1.stop.val.Driver = none ∧
        (NewRoot goos dflt exit ui config ac tg w0).1.start.val.Stop.val.Driver = none := by
  refine ⟨fun w => ?_, fun dflt exit ac tg w0 => ?_⟩
  · rw [newDriver_unsupported goos ui config w h1 h2 h3]
    exact ⟨rfl, rfl⟩
  · have key : (NewRoot goos dflt exit ui config ac tg w0).1.driver = none := by
      show (newDriver goos ui config _).1 = none
      rw [newDriver_unsupported goos ui config _ h1 h2 h3]
    exact ⟨key, key, key, key⟩

theorem newDriver_nil_on_unsupported_witness :
    ((newDriver "freebsd" sampleUI sampleConfig World.init).1 = none ∧
        (newDriver "freebsd" sampleUI sampleConfig World.init).2.calls
          = World.init.calls ++ ["newDriver", "newDaemonRunner"]) ∧
      (NewRoot "freebsd" sampleTemplate sampleExit sampleUI sampleConfig sampleAnalytics
        sampleToggle World.init).1.start.val.Driver = none :=
  have h := newDriver_nil_on_unsupported "freebsd" sampleUI sampleConfig
    (by decide) (by decide) (by decide)
  ⟨h.1 World.init, (h.2 sampleTemplate sampleExit sampleAnalytics sampleToggle World.init).2.1⟩

/-- C1 (counterexample): on "freebsd" `newDriver` returns nil, not an unsupported-platform
result, and the Start and Stop commands hold that nil `Driver`. -/
theorem newDriver_freebsd_nil :
    (newDriver "freebsd" sampleUI sampleConfig World.init).1 = none ∧
      (NewRoot "freebsd" sampleTemplate sampleExit sampleUI sampleConfig sampleAnalytics
        sampleToggle World.init).1.start.val.Driver = none ∧
      (NewRoot "freebsd" sampleTemplate sampleExit sampleUI sampleConfig sampleAnalytics
        sampleToggle World.init).1.stop.val.Driver = none := by
  decide

/-- C2: on "darwin", "windows" and "linux" `newDriver` returns a non-nil `Driver` holding the
hyperkit, hyperv and kvm backend respectively, and on every platform the backend selected does not
depend on `ui`, `config` or the state of the process. -/
theorem newDriver_backend_by_platform (ui : UI) (config : Config) (w : World) :
    backendOf (newDriver "darwin" ui config w).1 = some BackendKind.hyperkit ∧
      backendOf (newDriver "windows" ui config w).1 = some BackendKind.hyperv ∧
      backendOf (newDriver "linux" ui config w).1 = some BackendKind.kvm ∧
      ∀ (goos : String) (ui2 : UI) (config2 : Config) (w2 : World),
        backendOf (newDriver goos ui config w).1 = backendOf (newDriver goos ui2 config2 w2).1 := by
  refine ⟨rfl, rfl, rfl, fun goos ui2 config2 w2 => ?_⟩
  by_cases h1 : goos = "darwin"
  · subst h1; rfl
  · by_cases h2 : goos = "windows"
    · subst h2; rfl
    · by_cases h3 : goos = "linux"
      · subst h3; rfl
      · rw [newDriver_unsupported goos ui config w h1 h2 h3,
          newDriver_unsupported goos ui2 config2 w2 h1 h2 h3]

/-- C4: on "windows" `newDriver` hands `hyperv.New` the three fixed identifiers, in order,
whatever `ui`, `config` and the process state are; on "darwin" and "linux" the backend
constructor receives no identifier. -/
theorem newDriver_topology_ids (ui : UI) (config : Config) (w : World) :
    (newDriver "windows" ui config w).1
        = some ⟨w.next + 1, Backend.hyperv config ⟨w.next, ⟨config⟩⟩ ui {}
            "7207f451-2ca3-4b88-8d01-820a21d78293"
            "cc2a519a-fb40-4e45-a9f1-c7f04c5ad7fa"
            "e3ae8f06-8c25-47fb-b6ed-c20702bcef5e"⟩ ∧
      (∀ (ui2 : UI) (config2 : Config) (w2 : World),
        ((newDriver "windows" ui2 config2 w2).1.map (fun d => d.val.topologyIDs))
          = some ["7207f451-2ca3-4b88-8d01-820a21d78293",
                  "cc2a519a-fb40-4e45-a9f1-c7f04c5ad7fa",
                  "e3ae8f06-8c25-47fb-b6ed-c20702bcef5e"]) ∧
      (newDriver "darwin" ui config w).1
        = some ⟨w.next + 2, Backend.hyperkit config ⟨w.next, ⟨config⟩⟩ ui
            ⟨w.next + 1, ⟨"CFD3V", config.CFDevDSocketPath⟩⟩⟩ ∧
      (newDriver "darwin" ui config w).1.map (fun d => d.val.topologyIDs) = some [] ∧
      (newDriver "linux" ui config w).1
        = some ⟨w.next + 1, Backend.kvm config ⟨w.next, ⟨config⟩⟩ ui⟩ ∧
      (newDriver "linux" ui config w).1.map (fun d => d.val.topologyIDs) = some [] :=
  ⟨rfl, fun _ _ _ => rfl, rfl, rfl, rfl, rfl⟩

/-- C5: the cache `NewRoot` builds is the one the Start command holds, its `RetryWait` is
`time.Second`, which is 1,000,000,000 nanoseconds, and its `Dir` is `config.CacheDir`. -/
theorem cache_retry_wait (goos : String) (dflt : GoString) (exit : Chan) (ui : UI)
    (config : Config) (ac : AnalyticsClient) (tg : Toggle) (w0 : World) :
    (NewRoot goos dflt exit ui config ac tg w0).1.start.val.Cache
        = (NewRoot goos dflt exit ui config ac tg w0).1.cache ∧
      (NewRoot goos dflt exit ui config ac tg w0).1.cache.val.RetryWait = time.Second ∧
      time.Second = 1000000000 ∧
      (NewRoot goos dflt exit ui config ac tg w0).1.cache.val.Dir = config.CacheDir :=
  ⟨rfl, rfl, rfl, rfl⟩


/-- C3: a call of `NewRoot` calls `newDriver` once and at most one backend constructor; the
`Driver` it returned is the one held by the Start command, by the Stop command registered under
`dev` (the sixth command added) and by the Stop embedded in Start. -/
theorem one_driver_per_NewRoot (goos : String) (dflt : GoString) (exit : Chan) (ui : UI)
    (config : Config) (ac : AnalyticsClient) (tg : Toggle) (w0 : World) :
    (∃ made : List String,
        (NewRoot goos dflt exit ui config ac tg w0).2.calls = w0.calls ++ made ∧
        made.count "newDriver" = 1 ∧
        made.count "hyperkit.New" + made.count "hyperv.New" + made.count "kvm.New" ≤ 1) ∧
      (∃ w1 : World,
        (NewRoot goos dflt exit ui config ac tg w0).1.driver = (newDriver goos ui config w1).1) ∧
      (NewRoot goos dflt exit ui config ac tg w0).1.start.val.Driver
        = (NewRoot goos dflt exit ui config ac tg w0).1.driver ∧
      (NewRoot goos dflt exit ui config ac tg w0).1.stop.val.Driver
        = (NewRoot goos dflt exit ui config ac tg w0).1.driver ∧
      (NewRoot goos dflt exit ui config ac tg w0).1.start.val.Stop.val.Driver
        = (NewRoot goos dflt exit ui config ac tg w0).1.driver ∧
      (∃ k : Command,
        (NewRoot goos dflt exit ui config ac tg w0).2.cmds
            (NewRoot goos dflt exit ui config ac tg w0).1.dev = some k ∧
        k.commands[5]? = some (CmdRef.method CmdKind.stop
          (NewRoot goos dflt exit ui config ac tg w0).1.stop.addr
          ((NewRoot goos dflt exit ui config ac tg w0).1.helpCmd + 6))) := by
  refine ⟨⟨_, NewRoot_calls goos dflt exit ui config ac tg w0, ?_, ?_⟩, ⟨_, rfl⟩, rfl, rfl, rfl,
    ⟨_, NewRoot_dev_cmd goos dflt exit ui config ac tg w0, rfl⟩⟩
  · have h := (count_driverCalls goos).1
    simp only [List.count_append, h]
    decide
  · have h := (count_driverCalls goos).2
    simp only [List.count_append]
    have e1 : List.count "hyperkit.New" ["UI.Writer", "metadata.New", "newDriver", "newDaemonRunner"] = 0 := by decide
    have e2 : List.count "hyperv.New" ["UI.Writer", "metadata.New", "newDriver", "newDaemonRunner"] = 0 := by decide
    have e3 : List.count "kvm.New" ["UI.Writer", "metadata.New", "newDriver", "newDaemonRunner"] = 0 := by decide
    have e4 : List.count "hyperkit.New" ["newDaemonRunner", "progress.New", "provision.NewController", "provision.NewController",
              "provision.NewController", "Version.Cmd", "Bosh.Cmd", "Catalog.Cmd", "Download.Cmd",
              "Start.Cmd", "Stop.Cmd", "Telemetry.Cmd", "Provision.Cmd", "DeployService.Cmd"] = 0 := by decide
    have e5 : List.count "hyperv.New" ["newDaemonRunner", "progress.New", "provision.NewController", "provision.NewController",
              "provision.NewController", "Version.Cmd", "Bosh.Cmd", "Catalog.Cmd", "Download.Cmd",
              "Start.Cmd", "Stop.Cmd", "Telemetry.Cmd", "Provision.Cmd", "DeployService.Cmd"] = 0 := by decide
    have e6 : List.count "kvm.New" ["newDaemonRunner", "progress.New", "provision.NewController", "provision.NewController",
              "provision.NewController", "Version.Cmd", "Bosh.Cmd", "Catalog.Cmd", "Download.Cmd",
              "Start.Cmd", "Stop.Cmd", "Telemetry.Cmd", "Provision.Cmd", "DeployService.Cmd"] = 0 := by decide
    rw [e1, e2, e3, e4, e5, e6]
    omega

/-- C6: on a supported platform the analytics daemon `NewRoot` builds holds the value of a call
`newDaemonRunner(config)`, the driver backend was constructed with the value of a call
`newDaemonRunner(config)`, and both runners were built from `config`. -/
theorem daemon_runner_from_config (goos : String) (dflt : GoString) (exit : Chan) (ui : UI)
    (config : Config) (ac : AnalyticsClient) (tg : Toggle) (w0 : World)
    (hos : goos = "darwin" ∨ goos = "windows" ∨ goos = "linux") :
    (∃ w1 : World, (NewRoot goos dflt exit ui config ac tg w0).1.analyticsD.val.DaemonRunner
        = (newDaemonRunner config w1).1) ∧
      (NewRoot goos dflt exit ui config ac tg w0).1.analyticsD.val.DaemonRunner.val.config = config ∧
      (NewRoot goos dflt exit ui config ac tg w0).1.analyticsD.val.Config = config ∧
      (∃ d : Ptr Backend, (NewRoot goos dflt exit ui config ac tg w0).1.driver = some d ∧
        (∃ w2 : World, d.val.daemonRunner = (newDaemonRunner config w2).1) ∧
        d.val.daemonRunner.val.config = config) ∧
      (∀ w : World, ∃ d : Ptr Backend, (newDriver goos ui config w).1 = some d ∧
        d.val.daemonRunner = (newDaemonRunner config (call "newDriver" w).2).1) := by
  refine ⟨⟨_, rfl⟩, rfl, rfl, ?_, ?_⟩
  · rcases hos with h | h | h <;> subst h <;> exact ⟨_, rfl, ⟨_, rfl⟩, rfl⟩
  · intro w
    rcases hos with h | h | h <;> subst h <;> exact ⟨_, rfl, rfl⟩

theorem daemon_runner_from_config_witness :
    ((NewRoot "windows" sampleTemplate sampleExit sampleUI sampleConfig sampleAnalytics
        sampleToggle World.init).1.analyticsD.val.DaemonRunner.val.config = sampleConfig) ∧
      (NewRoot "windows" sampleTemplate sampleExit sampleUI sampleConfig sampleAnalytics
        sampleToggle World.init).1.analyticsD.val.DaemonRunner.addr = 4 ∧
      ((NewRoot "windows" sampleTemplate sampleExit sampleUI sampleConfig sampleAnalytics
        sampleToggle World.init).1.driver.map (fun d => d.val.daemonRunner))
        = some ⟨2, ⟨sampleConfig⟩⟩ :=
  ⟨(daemon_runner_from_config "windows" sampleTemplate sampleExit sampleUI sampleConfig
      sampleAnalytics sampleToggle World.init (Or.inr (Or.inl rfl))).2.1, by decide, by decide⟩

/-- C7: the Stop held by Start is the Stop whose command is registered under `dev`, and Start
and Stop share the driver, the analytics daemon (also given to the telemetry command) and the
analytics client passed to `NewRoot`. -/
theorem start_holds_registered_stop (goos : String) (dflt : GoString) (exit : Chan) (ui : UI)
    (config : Config) (ac : AnalyticsClient) (tg : Toggle) (w0 : World) :
    (NewRoot goos dflt exit ui config ac tg w0).1.start.val.Stop
        = (NewRoot goos dflt exit ui config ac tg w0).1.stop ∧
      (∃ k : Command,
        (NewRoot goos dflt exit ui config ac tg w0).2.cmds
            (NewRoot goos dflt exit ui config ac tg w0).1.dev = some k ∧
        (k.commands.filter (fun x => x matches CmdRef.method CmdKind.stop _ _))
          = [CmdRef.method CmdKind.stop
              (NewRoot goos dflt exit ui config ac tg w0).1.start.val.Stop.addr
              ((NewRoot goos dflt exit ui config ac tg w0).1.helpCmd + 6)]) ∧
      (NewRoot goos dflt exit ui config ac tg w0).1.start.val.Driver
        = (NewRoot goos dflt exit ui config ac tg w0).1.stop.val.Driver ∧
      (NewRoot goos dflt exit ui config ac tg w0).1.start.val.AnalyticsD
        = (NewRoot goos dflt exit ui config ac tg w0).1.stop.val.AnalyticsD ∧
      (NewRoot goos dflt exit ui config ac tg w0).1.telemetryCmd.val.AnalyticsD
        = (NewRoot goos dflt exit ui config ac tg w0).1.start.val.AnalyticsD ∧
      (NewRoot goos dflt exit ui config ac tg w0).1.start.val.Analytics = ac ∧
      (NewRoot goos dflt exit ui config ac tg w0).1.stop.val.Analytics = ac :=
  ⟨rfl, ⟨_, NewRoot_dev_cmd goos dflt exit ui config ac tg w0, rfl⟩, rfl, rfl, rfl, rfl, rfl⟩

/-- C8: the root command, `Use` "cf", has the single child `dev`; `dev` has exactly ten
children: the commands of version, bosh, catalog, download, start, stop, telemetry, provision
and deploy-service, in that order, and then the help command, whose name is "help". -/
theorem command_tree_shape (goos : String) (dflt : GoString) (exit : Chan) (ui : UI)
    (config : Config) (ac : AnalyticsClient) (tg : Toggle) (w0 : World) :
    (∃ k : Command,
        (NewRoot goos dflt exit ui config ac tg w0).2.cmds
            (NewRoot goos dflt exit ui config ac tg w0).1.root = some k ∧
        k.Use = "cf" ∧
        k.commands = [CmdRef.lit (NewRoot goos dflt exit ui config ac tg w0).1.dev]) ∧
      (∃ k : Command,
        (NewRoot goos dflt exit ui config ac tg w0).2.cmds
            (NewRoot goos dflt exit ui config ac tg w0).1.dev = some k ∧
        k.Use = "dev" ∧ k.commands.length = 10 ∧
        k.commands =
          [CmdRef.method CmdKind.version (NewRoot goos dflt exit ui config ac tg w0).1.version.addr
             ((NewRoot goos dflt exit ui config ac tg w0).1.helpCmd + 1),
           CmdRef.method CmdKind.bosh (NewRoot goos dflt exit ui config ac tg w0).1.bosh.addr
             ((NewRoot goos dflt exit ui config ac tg w0).1.helpCmd + 2),
           CmdRef.method CmdKind.catalog (NewRoot goos dflt exit ui config ac tg w0).1.catalog.addr
             ((NewRoot goos dflt exit ui config ac tg w0).1.helpCmd + 3),
           CmdRef.method CmdKind.download (NewRoot goos dflt exit ui config ac tg w0).1.download.addr
             ((NewRoot goos dflt exit ui config ac tg w0).1.helpCmd + 4),
           CmdRef.method CmdKind.start (NewRoot goos dflt exit ui config ac tg w0).1.start.addr
             ((NewRoot goos dflt exit ui config ac tg w0).1.helpCmd + 5),
           CmdRef.method CmdKind.stop (NewRoot goos dflt exit ui config ac tg w0).1.stop.addr
             ((NewRoot goos dflt exit ui config ac tg w0).1.helpCmd + 6),
           CmdRef.method CmdKind.telemetry
             (NewRoot goos dflt exit ui config ac tg w0).1.telemetryCmd.addr
             ((NewRoot goos dflt exit ui config ac tg w0).1.helpCmd + 7),
           CmdRef.method CmdKind.provision (NewRoot goos dflt exit ui config ac tg w0).1.prvsn.addr
             ((NewRoot goos dflt exit ui config ac tg w0).1.helpCmd + 8),
           CmdRef.method CmdKind.deployService
             (NewRoot goos dflt exit ui config ac tg w0).1.deployService.addr
             ((NewRoot goos dflt exit ui config ac tg w0).1.helpCmd + 9),
           CmdRef.lit (NewRoot goos dflt exit ui config ac tg w0).1.helpCmd]) ∧
      (∃ k : Command,
        (NewRoot goos dflt exit ui config ac tg w0).2.cmds
            (NewRoot goos dflt exit ui config ac tg w0).1.helpCmd = some k ∧
        k.Name = "help" ∧ k.commands = []) :=
  ⟨⟨_, NewRoot_root_cmd goos dflt exit ui config ac tg w0, rfl, rfl⟩,
   ⟨_, NewRoot_dev_cmd goos dflt exit ui config ac tg w0, rfl, rfl, rfl⟩,
   ⟨_, NewRoot_help_cmd goos dflt exit ui config ac tg w0, rfl, rfl⟩⟩

/-- C9: the usage template `NewRoot` installs on root is `strings.Replace` of cobra's default
by the help-hint line with the empty string: the default splits into pieces around the deleted
instances of the line, no piece holds the line, and the installed template is the pieces put
together; it is the default itself when the line does not occur in it, and its length is the
default's minus a multiple of the line's length. -/
theorem usage_template_deletes_hint (goos : String) (dflt : GoString) (exit : Chan) (ui : UI)
    (config : Config) (ac : AnalyticsClient) (tg : Toggle) (w0 : World) (hw : w0.WF) :
    installedUsageTemplate (NewRoot goos dflt exit ui config ac tg w0).2
        (NewRoot goos dflt exit ui config ac tg w0).1.root
        = strings.Replace dflt helpHintLine [] (-1) ∧
      (∃ ps : List GoString, ps ≠ [] ∧
        dflt = List.intercalate helpHintLine ps ∧
        installedUsageTemplate (NewRoot goos dflt exit ui config ac tg w0).2
          (NewRoot goos dflt exit ui config ac tg w0).1.root = ps.flatten ∧
        ∀ q ∈ ps, ¬ helpHintLine <:+: q) ∧
      (¬ helpHintLine <:+: dflt →
        installedUsageTemplate (NewRoot goos dflt exit ui config ac tg w0).2
          (NewRoot goos dflt exit ui config ac tg w0).1.root = dflt) ∧
      (∃ n : Nat,
        (installedUsageTemplate (NewRoot goos dflt exit ui config ac tg w0).2
          (NewRoot goos dflt exit ui config ac tg w0).1.root).length + n * helpHintLine.length
          = dflt.length) := by
  have hinst := installed_template goos dflt exit ui config ac tg w0 hw
  have hne : helpHintLine ≠ [] := by decide
  obtain ⟨ps, hps, hsplit, hrep, hclean⟩ := strings.Replace_delete dflt helpHintLine hne
  refine ⟨hinst, ⟨ps, hps, hsplit, by rw [hinst, hrep], hclean⟩, fun habs => ?_, ps.length - 1, ?_⟩
  · rw [hinst, strings.Replace_absent dflt helpHintLine [] (-1) habs]
  · rw [hinst, hrep]
    conv_rhs => rw [hsplit]
    rw [strings.length_intercalate helpHintLine ps hps]

theorem usage_template_deletes_hint_witness :
    World.init.WF ∧
      installedUsageTemplate
        (NewRoot "linux" sampleTemplate sampleExit sampleUI sampleConfig sampleAnalytics
          sampleToggle World.init).2
        (NewRoot "linux" sampleTemplate sampleExit sampleUI sampleConfig sampleAnalytics
          sampleToggle World.init).1.root
        = strings.Replace sampleTemplate helpHintLine [] (-1) ∧
      strings.Replace sampleTemplate helpHintLine [] (-1) = bytes "Usage:\n  \x7b\x7b.UseLine\x7d\x7d\n" :=
  ⟨World.init_WF,
   (usage_template_deletes_hint "linux" sampleTemplate sampleExit sampleUI sampleConfig
      sampleAnalytics sampleToggle World.init World.init_WF).1,
   by decide⟩


end Cfdev
